import Mathlib

/-!
Shallow embedding of the Rate Aggregation & Fee Composition Engine of the
multi-carrier shipping rate calculator, together with proofs of its stated
properties.

Modelling conventions:
* Monetary amounts (JS `number`) are rationals (`ℚ`).
* Dates are epoch-millisecond integers (`ℤ`); `Date.now()` and `new Date()`
  appear as explicit `now`/`today` parameters, and the JS date-string parser
  `new Date(s).getTime()` appears as an explicit `parseDate : String → ℤ`
  parameter.
* `Number.parseFloat(x.toFixed(2))` is modelled by `round2` (round half up at
  the second decimal; every amount the program rounds is non-negative).
* Promise rejection / thrown JS values are modelled with `Except`; the
  possible thrown values are captured by the `Thrown` type.
-/

namespace ShippingApp

/-- Rounding to 2 decimals, the model of `Number.parseFloat(x.toFixed(2))`
for the non-negative amounts this program rounds. -/
def round2 (q : ℚ) : ℚ := ((⌊q * 100 + 1 / 2⌋ : ℤ) : ℚ) / 100

/-- `ServiceSpeed` from `src/types/domain.ts`. -/
inductive ServiceSpeed where
  | overnight
  | twoDay
  | standard
  | economy
deriving DecidableEq, Repr

/-- Fee type tags as used by the fee decorators and carrier adapters
(`insurance | signature | other | saturdayDelivery | fuel`). -/
inductive FeeType where
  | insurance
  | signature
  | other
  | saturdayDelivery
  | fuel
deriving DecidableEq, Repr

/-- `Fee` from `src/types/domain.ts`. -/
structure Fee where
  type : FeeType
  amount : ℚ
  description : String
deriving DecidableEq, Repr

/-- `ShippingRate` from `src/types/domain.ts` (the Canonical Rate). -/
structure ShippingRate where
  id : String
  carrier : String
  serviceCode : String
  serviceName : String
  speed : ServiceSpeed
  features : List String
  baseRate : ℚ
  additionalFees : List Fee
  totalCost : ℚ
  estimatedDeliveryDate : ℤ
  guaranteedDelivery : Bool
deriving DecidableEq, Repr

/-- The shipping-option fields read by `applyFees` in
`src/services/fee-decorators/decorator.ts` (`declaredValue`,
`signatureRequired`, `fragileHandling`, `saturdayDeliveryRequired`). -/
structure ShippingOptions where
  declaredValue : Option ℚ
  signatureRequired : Bool
  fragileHandling : Bool
  saturdayDeliveryRequired : Bool
deriving DecidableEq, Repr

/-- Domain-level `CarrierError` record from `src/types/domain.ts`. -/
structure CarrierError where
  carrier : String
  message : String
  recoverable : Bool
deriving DecidableEq, Repr

/-- `RateResponse` from `src/types/domain.ts`. -/
structure RateResponse where
  requestId : String
  rates : List ShippingRate
  errors : List CarrierError
  timestamp : String
deriving DecidableEq, Repr

/-! ### String helpers (models of `String.prototype.toLowerCase` and
`String.prototype.includes`) -/

/-- `s.toLowerCase()`. -/
def lowerStr (s : String) : String := ⟨s.data.map Char.toLower⟩

/-- Does `needle` occur at the head of `haystack`? -/
def charsPrefix : List Char → List Char → Bool
  | [], _ => true
  | _ :: _, [] => false
  | n :: ns, h :: hs => n == h && charsPrefix ns hs

/-- Does `needle` occur anywhere in `haystack`? -/
def charsInfix (needle : List Char) : List Char → Bool
  | [] => needle.isEmpty
  | c :: rest => charsPrefix needle (c :: rest) || charsInfix needle rest

/-- `haystack.includes(needle)`. -/
def hasSubstr (haystack needle : String) : Bool :=
  charsInfix needle.data haystack.data

/-! ### Fee decorators (`src/services/fee-decorators/decorator.ts`)

The `RateComponent` interface with its `BaseRate` base class and the four
decorator classes form a closed family of wrapping shapes; the inductive
below has one constructor per class, and `getCost` / `getDescription` /
`getFees` are each class's method. -/

/-- A `RateComponent` value: the `BaseRate` class or one of the decorator
classes wrapping an inner component. -/
inductive RateComponent where
  | BaseRate (baseAmount : ℚ) (serviceName : String)
  | InsuranceDecorator (component : RateComponent) (declaredValue : ℚ)
  | SignatureDecorator (component : RateComponent)
  | FragileHandlingDecorator (component : RateComponent)
  | SaturdayDeliveryDecorator (component : RateComponent)
deriving DecidableEq, Repr

/-- `InsuranceDecorator.calculateInsurance`: $1 per $100 of value, minimum
$2.50, result passed through `toFixed(2)`. -/
def calculateInsurance (declaredValue : ℚ) : Fee :=
  { type := .insurance
    amount := round2 (max (declaredValue / 100) (5 / 2))
    description := "Declared Value Insurance" }

/-- `SignatureDecorator`'s fixed fee. -/
def signatureFee : Fee :=
  { type := .signature, amount := 11 / 2, description := "Signature Required" }

/-- `FragileHandlingDecorator`'s fixed fee. -/
def fragileFee : Fee :=
  { type := .other, amount := 10, description := "Fragile Handling" }

/-- `SaturdayDeliveryDecorator`'s fixed fee. -/
def saturdayFee : Fee :=
  { type := .saturdayDelivery, amount := 15, description := "Saturday Delivery" }

/-- `getCost()`: the base amount for `BaseRate`, inner cost plus the own fee
amount for each decorator. -/
def getCost : RateComponent → ℚ
  | .BaseRate baseAmount _ => baseAmount
  | .InsuranceDecorator component declaredValue =>
      getCost component + (calculateInsurance declaredValue).amount
  | .SignatureDecorator component => getCost component + signatureFee.amount
  | .FragileHandlingDecorator component => getCost component + fragileFee.amount
  | .SaturdayDeliveryDecorator component => getCost component + saturdayFee.amount

/-- `getFees()`: empty for `BaseRate`, inner fees with the own fee appended
for each decorator. -/
def getFees : RateComponent → List Fee
  | .BaseRate _ _ => []
  | .InsuranceDecorator component declaredValue =>
      getFees component ++ [calculateInsurance declaredValue]
  | .SignatureDecorator component => getFees component ++ [signatureFee]
  | .FragileHandlingDecorator component => getFees component ++ [fragileFee]
  | .SaturdayDeliveryDecorator component => getFees component ++ [saturdayFee]

/-- `getDescription()`: the service name, forwarded unchanged by every
decorator. -/
def getDescription : RateComponent → String
  | .BaseRate _ serviceName => serviceName
  | .InsuranceDecorator component _ => getDescription component
  | .SignatureDecorator component => getDescription component
  | .FragileHandlingDecorator component => getDescription component
  | .SaturdayDeliveryDecorator component => getDescription component

/-- `applyFees` from `decorator.ts`: wrap the base in zero or more
decorators, one per active option, in the fixed order insurance, signature,
fragile, Saturday.  `options.declaredValue && options.declaredValue > 0`
is JS truthiness: the insurance decorator applies only when the declared
value is present and positive. -/
def applyFees (baseRate : RateComponent) (options : ShippingOptions) : RateComponent :=
  let d1 :=
    match options.declaredValue with
    | some v => if 0 < v then .InsuranceDecorator baseRate v else baseRate
    | none => baseRate
  let d2 := if options.signatureRequired then .SignatureDecorator d1 else d1
  let d3 := if options.fragileHandling then .FragileHandlingDecorator d2 else d2
  if options.saturdayDeliveryRequired then .SaturdayDeliveryDecorator d3 else d3

/-- The base amount at the bottom of a decorator chain (the undecorated
cost). -/
def baseAmountOf : RateComponent → ℚ
  | .BaseRate baseAmount _ => baseAmount
  | .InsuranceDecorator component _ => baseAmountOf component
  | .SignatureDecorator component => baseAmountOf component
  | .FragileHandlingDecorator component => baseAmountOf component
  | .SaturdayDeliveryDecorator component => baseAmountOf component

/-- One decoration step, as chosen by a caller: which decorator class to
apply, with its argument.  Used to speak about arbitrary decoration
sequences. -/
inductive DecoratorKind where
  | insurance (declaredValue : ℚ)
  | signature
  | fragile
  | saturday
deriving DecidableEq, Repr

/-- Apply one decorator class to a component. -/
def decorate (component : RateComponent) : DecoratorKind → RateComponent
  | .insurance declaredValue => .InsuranceDecorator component declaredValue
  | .signature => .SignatureDecorator component
  | .fragile => .FragileHandlingDecorator component
  | .saturday => .SaturdayDeliveryDecorator component

/-- Apply a sequence of decorators, innermost first. -/
def decorateAll (component : RateComponent) (ds : List DecoratorKind) : RateComponent :=
  ds.foldl decorate component

/-- The one fee a decorator of the given kind contributes. -/
def feeOfKind : DecoratorKind → Fee
  | .insurance declaredValue => calculateInsurance declaredValue
  | .signature => signatureFee
  | .fragile => fragileFee
  | .saturday => saturdayFee

/-! ### Thrown JS values and the orchestrator (`src/services/rate-service.ts`) -/

/-- A value thrown by adapter code, as the orchestrator can observe it:
a `CarrierError` instance (from `adapter.ts`, an `Error` subclass carrying
`carrier` and `recoverable`), some other `Error` with a message, or a
non-`Error` value. -/
inductive Thrown where
  | carrierErr (carrier : String) (message : String) (recoverable : Bool)
  | plainErr (message : String)
  | nonError
deriving DecidableEq, Repr

/-- `error instanceof Error ? error.message : 'Unknown error'`. -/
def messageOf : Thrown → String
  | .carrierErr _ message _ => message
  | .plainErr message => message
  | .nonError => "Unknown error"

/-- `RateService.applyAdditionalFees`: rebuild a `BaseRate` component from
the rate's base price and service name, decorate it per the options, and
replace the rate's fee list and total with the decorated values. -/
def applyAdditionalFees (rate : ShippingRate) (options : ShippingOptions) : ShippingRate :=
  let decorated := applyFees (.BaseRate rate.baseRate rate.serviceName) options
  { rate with
      additionalFees := getFees decorated
      totalCost := getCost decorated }

/-- The comparator of `RateService.sortRates` as a boolean "less or equal"
relation: sort by `totalCost` ascending (`a.totalCost - b.totalCost`), ties
broken by `estimatedDeliveryDate` ascending. -/
def rateLE (a b : ShippingRate) : Bool :=
  decide (a.totalCost < b.totalCost) ||
    (decide (a.totalCost = b.totalCost) &&
      decide (a.estimatedDeliveryDate ≤ b.estimatedDeliveryDate))

/-- `RateService.sortRates`: a comparison sort of a copy of the list under
the cost-then-date comparator. -/
def sortRates (rates : List ShippingRate) : List ShippingRate :=
  rates.mergeSort rateLE

/-- One settled per-carrier promise as built in `fetchAllRates`:
the carrier that was dispatched, with the fulfilled rate list or the
rejection reason. -/
inductive SettledStatus where
  | fulfilled (value : List ShippingRate)
  | rejected (reason : Thrown)
deriving DecidableEq, Repr

/-- A settled result entry (`{ status, value | reason, carrier }`). -/
structure Settled where
  carrier : String
  status : SettledStatus
deriving DecidableEq, Repr

/-- The error entry `fetchAllRates` pushes for one rejected result:
a `CarrierError` instance supplies its own carrier, message and
`recoverable` flag; anything else is attributed to the dispatched carrier
with `recoverable: true`. -/
def toDomainError (resultCarrier : String) : Thrown → CarrierError
  | .carrierErr carrier message recoverable => ⟨carrier, message, recoverable⟩
  | .plainErr message => ⟨resultCarrier, message, true⟩
  | .nonError => ⟨resultCarrier, "Unknown error", true⟩

/-- The rates array accumulated by the `results.forEach` loop of
`fetchAllRates` (fulfilled values spread in settlement order). -/
def collectRates : List Settled → List ShippingRate
  | [] => []
  | ⟨_, .fulfilled value⟩ :: rest => value ++ collectRates rest
  | ⟨_, .rejected _⟩ :: rest => collectRates rest

/-- The errors array accumulated by the `results.forEach` loop of
`fetchAllRates` (one entry per rejected result, in settlement order). -/
def collectErrors : List Settled → List CarrierError
  | [] => []
  | ⟨_, .fulfilled _⟩ :: rest => collectErrors rest
  | ⟨carrier, .rejected reason⟩ :: rest =>
      toDomainError carrier reason :: collectErrors rest

/-- `RateService.fetchAllRates` after the per-carrier promises settled:
collect rates and errors from the settled results, sort the rates, and
build the response.  The request id and timestamp are generated values,
passed in here. -/
def fetchAllRates (requestId : String) (timestamp : String)
    (results : List Settled) : RateResponse :=
  { requestId
    rates := sortRates (collectRates results)
    errors := collectErrors results
    timestamp }

/-- `RateService.isRecoverableError`: a `CarrierError` answers its own flag;
another `Error` is recoverable iff its lowercased message mentions a
transport fault; a non-`Error` value is recoverable. -/
def isRecoverableError : Thrown → Bool
  | .carrierErr _ _ recoverable => recoverable
  | .plainErr msg =>
      let message := lowerStr msg
      hasSubstr message "timeout" ||
        hasSubstr message "econnrefused" ||
        hasSubstr message "enotfound" ||
        hasSubstr message "network"
  | .nonError => true

/-! ### Retry with backoff (`fetchCarrierRate` / `retryWithBackoff` /
`wasRetried`)

The adapter's behaviour on each successive invocation is an oracle
`ℕ → AdapterOutcome` indexed by the invocation count.  The mutable pieces
of `RateService` state touched by one carrier's chain are the carrier's
`retryMap` counter, the number of adapter invocations so far, and the
`setTimeout` backoff waits performed (recorded in milliseconds, in order).
The mutual recursion `fetchCarrierRate` ↔ `retryWithBackoff` is written as
one function over a call descriptor, with a fuel argument for termination;
`fetchCarrierRate` runs it with ample fuel (the chain's depth is bounded by
8, see `maxRetries`). -/

/-- What one `adapter.fetchRates` invocation does: resolve with rates or
reject with a thrown value. -/
inductive AdapterOutcome where
  | ok (rates : List ShippingRate)
  | thrown (e : Thrown)
deriving DecidableEq, Repr

/-- Per-carrier mutable state of one fetch chain. -/
structure RetryState where
  retryCount : ℕ
  callIndex : ℕ
  waits : List ℕ
deriving DecidableEq, Repr

/-- Which function of the mutual pair is being entered. -/
inductive FetchCall where
  | fetch
  | retry (attempt : ℕ)
deriving DecidableEq, Repr

/-- `retryWithBackoff`'s default `maxRetries`. -/
def maxRetries : ℕ := 3

/-- The mutual recursion of `fetchCarrierRate` (`.fetch`) and
`retryWithBackoff` (`.retry attempt`).

`.fetch`: invoke the adapter; on success decorate each rate; on a thrown
error, when `isRecoverableError` holds consult-and-increment `wasRetried`
(the `&&` short-circuits, so the counter moves only on recoverable errors)
and enter `retryWithBackoff` at attempt 0 when the carrier had not been
retried before, otherwise re-throw.

`.retry attempt`: throw the retries-exhausted `Error` at
`attempt >= maxRetries`; otherwise wait `2^attempt * 1000` ms, try
`fetchCarrierRate` again, and on any error recurse at `attempt + 1`. -/
def fetchGo (carrier : String) (oracle : ℕ → AdapterOutcome)
    (options : ShippingOptions) :
    ℕ → FetchCall → RetryState →
      Option (Except Thrown (List ShippingRate) × RetryState)
  | 0, _, _ => none
  | fuel + 1, .fetch, s =>
      match oracle s.callIndex with
      | .ok rates =>
          some (.ok (rates.map (fun r => applyAdditionalFees r options)),
            { s with callIndex := s.callIndex + 1 })
      | .thrown e =>
          let s1 := { s with callIndex := s.callIndex + 1 }
          if isRecoverableError e then
            let wasRetried := decide (0 < s1.retryCount)
            let s2 := { s1 with retryCount := s1.retryCount + 1 }
            if wasRetried then some (.error e, s2)
            else fetchGo carrier oracle options fuel (.retry 0) s2
          else some (.error e, s1)
  | fuel + 1, .retry attempt, s =>
      if maxRetries ≤ attempt then
        some (.error (.plainErr
          ("Failed to fetch rates from " ++ carrier ++ " after 3 retries")), s)
      else
        let s1 := { s with waits := s.waits ++ [2 ^ attempt * 1000] }
        match fetchGo carrier oracle options fuel .fetch s1 with
        | none => none
        | some (.ok v, s2) => some (.ok v, s2)
        | some (.error _, s2) => fetchGo carrier oracle options fuel (.retry (attempt + 1)) s2

/-- `RateService.fetchCarrierRate` for a carrier whose `retryMap` entry is
fresh (a new `RateService` instance): run the chain from a zeroed state. -/
def fetchCarrierRate (carrier : String) (oracle : ℕ → AdapterOutcome)
    (options : ShippingOptions) :
    Option (Except Thrown (List ShippingRate) × RetryState) :=
  fetchGo carrier oracle options 16 .fetch ⟨0, 0, []⟩

/-- Observable view of a fetch chain: its result, how many adapter
invocations happened, and the backoff waits performed. -/
def runView (r : Option (Except Thrown (List ShippingRate) × RetryState)) :
    Option (Except Thrown (List ShippingRate) × ℕ × List ℕ) :=
  r.map (fun p => (p.1, p.2.callIndex, p.2.waits))

/-! ### Shared adapter helpers -/

/-- A decimal numeral parser, the model of `Number.parseFloat` on the
decimal strings this program feeds it (`"28.95"`, `"55.50"`, ...).
Strings that are not a plain decimal numeral give `none` (JS `NaN`). -/
def parseDecimal (s : String) : Option ℚ :=
  match s.splitOn "." with
  | [i] => (i.toNat?).map (fun n => (n : ℚ))
  | [i, f] =>
      match i.toNat?, f.toNat? with
      | some n, some d => some ((n : ℚ) + (d : ℚ) / ((10 : ℚ) ^ f.length))
      | _, _ => none
  | _ => none

/-- `deliveryDate.setDate(deliveryDate.getDate() + days)`: adding whole days
to an epoch-millisecond timestamp. -/
def addDays (t : ℤ) (days : ℕ) : ℤ := t + (days : ℤ) * 86400000

/-! ### USPS adapter (`src/adapters/carrier-adapters/usps-adapter.ts`) -/

/-- One entry of `RateV4Response.Package.Postage`. -/
structure USPSPostage where
  mailService : String
  rate : String
  classId : Option String
deriving DecidableEq, Repr

/-- The USPS API response; the optional chain
`RateV4Response?.Package?.Postage` is collapsed into one optional list. -/
structure USPSAPIResponse where
  postage : Option (List USPSPostage)
deriving DecidableEq, Repr

/-- `USPS_SERVICE_MAP`. -/
def uspsServiceMap : String → Option (String × String)
  | "PRIORITY_MAIL" => some ("priority", "Priority Mail")
  | "PRIORITY_MAIL_EXPRESS" => some ("express", "Priority Mail Express")
  | "GROUND_ADVANTAGE" => some ("ground", "Ground Advantage")
  | "MEDIA_MAIL" => some ("media", "Media Mail")
  | _ => none

/-- `USPS_SPEED_MAP`. -/
def uspsSpeedMap : String → Option ServiceSpeed
  | "PRIORITY_MAIL" => some .twoDay
  | "PRIORITY_MAIL_EXPRESS" => some .overnight
  | "GROUND_ADVANTAGE" => some .economy
  | "MEDIA_MAIL" => some .economy
  | _ => none

/-- The `daysToAdd` table of `USPSAdapter.calculateDeliveryDate`. -/
def uspsDeliveryDays : String → Option ℕ
  | "PRIORITY_MAIL_EXPRESS" => some 1
  | "PRIORITY_MAIL" => some 2
  | "GROUND_ADVANTAGE" => some 5
  | "MEDIA_MAIL" => some 7
  | _ => none

/-- `USPSAdapter.extractFeatures`. -/
def uspsExtractFeatures (serviceType : String) : List String :=
  (if serviceType == "PRIORITY_MAIL_EXPRESS" then
    ["Guaranteed Delivery", "Money-Back Guarantee"] else []) ++
  (if serviceType == "PRIORITY_MAIL" then ["Signature Available"] else [])

/-- `USPSAdapter.transformToShippingRate` (`now` models `Date.now()`,
`today` models `new Date()`; an unparsable `Rate` string, JS `NaN`, is
modelled as 0 — every `Rate` literal in the repository parses). -/
def uspsTransformToShippingRate (now today : ℤ) (postage : USPSPostage) : ShippingRate :=
  let serviceInfo :=
    (uspsServiceMap postage.mailService).getD
      (lowerStr postage.mailService, postage.mailService)
  let baseRate := (parseDecimal postage.rate).getD 0
  { id := "usps-" ++ serviceInfo.1 ++ "-" ++ toString now
    carrier := "USPS"
    serviceCode := serviceInfo.1
    serviceName := serviceInfo.2
    speed := (uspsSpeedMap postage.mailService).getD .standard
    features := uspsExtractFeatures postage.mailService
    baseRate
    additionalFees := []
    totalCost := baseRate
    estimatedDeliveryDate := addDays today ((uspsDeliveryDays postage.mailService).getD 3)
    guaranteedDelivery := postage.mailService == "PRIORITY_MAIL_EXPRESS" }

/-- `USPSAdapter.adaptUSPSResponse`: missing postage gives the empty list;
otherwise keep the items with truthy (non-empty) `MailService` and `Rate`
and transform each. -/
def adaptUSPSResponse (now today : ℤ) (response : USPSAPIResponse) : List ShippingRate :=
  match response.postage with
  | none => []
  | some postage =>
      (postage.filter (fun item => item.mailService != "" && item.rate != "")).map
        (uspsTransformToShippingRate now today)

/-- `USPSAdapter.callUSPSAPI`: the mock postage table is commented out and
the stub always returns `Postage: []` ("USPS is disabled"). -/
def uspsCallAPI : USPSAPIResponse := { postage := some [] }

/-- `USPSAdapter.fetchRates` with the API-call outcome abstracted: the `try`
body adapts the response, and the `catch` wraps any thrown value as
`new CarrierError('USPS', message, true)`. -/
def uspsFetchRatesWith (apiResult : Except Thrown USPSAPIResponse)
    (now today : ℤ) : Except Thrown (List ShippingRate) :=
  match apiResult.map (adaptUSPSResponse now today) with
  | .ok v => .ok v
  | .error e => .error (.carrierErr "USPS" (messageOf e) true)

/-- `USPSAdapter.fetchRates` as shipped: the stub API call always succeeds
with the empty-postage response. -/
def uspsFetchRates (now today : ℤ) : Except Thrown (List ShippingRate) :=
  uspsFetchRatesWith (.ok uspsCallAPI) now today

/-! ### UPS adapter (`src/adapters/carrier-adapters/ups-adapter.ts`) -/

/-- One entry of a model's `Shipment.Service` array. -/
structure UPSService where
  code : String
  description : String
deriving DecidableEq, Repr

/-- A `RateModels` entry; the optional chains
`Shipment?.Service` and
`Shipment?.ShipmentRatingOptions?.NegotiatedRateCharges?.TotalCharge?.MonetaryValue`
are collapsed into one optional field each, and `ChargeWeight` /
`DeliveryTimeInformation` (never read by the adaptation) are omitted. -/
structure UPSRateModel where
  services : Option (List UPSService)
  negotiatedTotalCharge : Option String
deriving DecidableEq, Repr

/-- A UPS API error entry. -/
structure UPSAPIError where
  code : String
  message : String
deriving DecidableEq, Repr

/-- The UPS API response. -/
structure UPSRateResponse where
  rateModels : Option (List UPSRateModel)
  errors : Option (List UPSAPIError)
deriving DecidableEq, Repr

/-- `UPS_SERVICE_MAP`. -/
def upsServiceMap : String → Option (String × String)
  | "01" => some ("ups_next_day_air", "UPS Next Day Air")
  | "02" => some ("ups_2nd_day_air", "UPS 2nd Day Air")
  | "03" => some ("ups_ground", "UPS Ground")
  | "14" => some ("ups_overnight", "UPS Overnight")
  | _ => none

/-- `UPS_SPEED_MAP`. -/
def upsSpeedMap : String → Option ServiceSpeed
  | "01" => some .overnight
  | "02" => some .twoDay
  | "03" => some .economy
  | "14" => some .overnight
  | _ => none

/-- The `daysToAdd` table of `UPSAdapter.calculateDeliveryDate`. -/
def upsDeliveryDays : String → Option ℕ
  | "01" => some 1
  | "02" => some 2
  | "03" => some 5
  | "14" => some 1
  | _ => none

/-- `UPSAdapter.extractFeatures`. -/
def upsExtractFeatures (serviceCode : String) : List String :=
  ((if serviceCode == "01" || serviceCode == "14" then ["Guaranteed Delivery"] else []) ++
   (if serviceCode == "02" then ["Standard Delivery"] else []) ++
   (if serviceCode == "03" then ["Ground Service"] else [])) ++
  ["Signature Available"]

/-- `UPSAdapter.extractBaseRate`: the negotiated total charge when truthy,
else 0 (an unparsable charge, JS `NaN`, is modelled as 0). -/
def upsExtractBaseRate (model : UPSRateModel) : ℚ :=
  match model.negotiatedTotalCharge with
  | some charge => if charge != "" then (parseDecimal charge).getD 0 else 0
  | none => 0

/-- The rate object pushed for one service of one model in
`UPSAdapter.adaptUPSResponse`. -/
def upsBuildRate (now today : ℤ) (model : UPSRateModel) (service : UPSService) :
    ShippingRate :=
  let baseRate := upsExtractBaseRate model
  let serviceInfo :=
    (upsServiceMap service.code).getD (lowerStr service.code, service.description)
  { id := "ups-" ++ serviceInfo.1 ++ "-" ++ toString now
    carrier := "UPS"
    serviceCode := serviceInfo.1
    serviceName := serviceInfo.2
    speed := (upsSpeedMap service.code).getD .standard
    features := upsExtractFeatures service.code
    baseRate
    additionalFees := []
    totalCost := baseRate
    estimatedDeliveryDate := addDays today ((upsDeliveryDays service.code).getD 3)
    guaranteedDelivery := service.code == "01" || service.code == "14" }

/-- `UPSAdapter.adaptUPSResponse`: throw the first API error's message if
any; empty or missing `RateModels` gives the empty list; otherwise push one
rate per service of each model that has services. -/
def adaptUPSResponse (now today : ℤ) (response : UPSRateResponse) :
    Except Thrown (List ShippingRate) :=
  match response.errors with
  | some (e :: _) => .error (.plainErr e.message)
  | _ =>
      match response.rateModels with
      | none => .ok []
      | some models =>
          if models.isEmpty then .ok []
          else
            .ok (models.flatMap (fun model =>
              match model.services with
              | none => []
              | some services => services.map (upsBuildRate now today model)))

/-- `UPSAdapter.fetchRates` with the API-call outcome abstracted: the
`catch` wraps any thrown value as `new CarrierError('UPS', message, true)`. -/
def upsFetchRatesWith (apiResult : Except Thrown UPSRateResponse)
    (now today : ℤ) : Except Thrown (List ShippingRate) :=
  match apiResult.bind (adaptUPSResponse now today) with
  | .ok v => .ok v
  | .error e => .error (.carrierErr "UPS" (messageOf e) true)

/-! ### FedEx adapter

The `FedExAdapter` class appearing in
`src/adapters/carrier-adapters/usps-adapter.ts` and, in a later revision,
in the `fedex-adapter.ts` source: `fetchRates`, `handleAlerts`,
`selectRate`, `extractFeatures`, `parseDeliveryDate` and `adaptFedExRate`
are identical in both revisions; `getMockRates` below is the mock table of
the revision cited for the rate-total invariant. -/

/-- A response alert (`{ code, message, alertType }`). -/
structure FedExAlert where
  code : String
  message : String
  alertType : String
deriving DecidableEq, Repr

/-- One surcharge of a rated shipment. -/
structure FedExSurcharge where
  type : String
  description : String
  amount : ℚ
deriving DecidableEq, Repr

/-- One `ratedShipmentDetails` entry; the optional chain
`shipmentRateDetail?.surCharges?` is collapsed into one optional list. -/
structure FedExRatedShipment where
  rateType : String
  totalBaseCharge : ℚ
  totalNetCharge : ℚ
  surCharges : Option (List FedExSurcharge)
deriving DecidableEq, Repr

/-- `operationalDetail` of a rate reply detail. -/
structure FedExOperationalDetail where
  deliveryDay : Option String
  transitTime : Option String
  ineligibleForMoneyBackGuarantee : Option Bool
  commitDate : Option String
deriving DecidableEq, Repr

/-- One `rateReplyDetails` entry; `serviceDescription.code` is the
`serviceDescriptionCode` field, and the optional chain
`commit?.dateDetail?.dayCxsFormat` is collapsed into one optional string. -/
structure FedExRateReplyDetail where
  serviceType : String
  serviceName : String
  serviceDescriptionCode : String
  signatureOptionType : Option String
  operationalDetail : Option FedExOperationalDetail
  ratedShipmentDetails : List FedExRatedShipment
  commitDayCxsFormat : Option String
deriving DecidableEq, Repr

/-- The FedEx rate response (`output.rateReplyDetails`, `output.alerts`). -/
structure FedExRateResponse where
  rateReplyDetails : List FedExRateReplyDetail
  alerts : Option (List FedExAlert)
deriving DecidableEq, Repr

/-- `FEDEX_SPEED_MAP`. -/
def fedexSpeedMap : String → Option ServiceSpeed
  | "INTERNATIONAL_FIRST" => some .overnight
  | "PRIORITY_OVERNIGHT" => some .overnight
  | "FIRST_OVERNIGHT" => some .overnight
  | "INTERNATIONAL_PRIORITY" => some .twoDay
  | "FEDEX_2_DAY" => some .twoDay
  | "INTERNATIONAL_ECONOMY" => some .standard
  | "FEDEX_EXPRESS_SAVER" => some .standard
  | "FEDEX_GROUND" => some .economy
  | "GROUND_HOME_DELIVERY" => some .economy
  | _ => none

/-- `FedExAdapter.selectRate`: the ACCOUNT-tier detail if present, else the
LIST-tier detail, else the first detail (on an empty array, JS would yield
`undefined` and the subsequent field access would throw; hence `Option`). -/
def fedexSelectRate (details : List FedExRatedShipment) : Option FedExRatedShipment :=
  (details.find? (fun d => d.rateType == "ACCOUNT")).orElse (fun _ =>
    (details.find? (fun d => d.rateType == "LIST")).orElse (fun _ => details.head?))

/-- `FedExAdapter.formatTransitTime`. -/
def fedexFormatTransitTime (transitTime : String) : String :=
  match transitTime with
  | "ONE_DAY" => "1 Day"
  | "TWO_DAYS" => "2 Days"
  | "THREE_DAYS" => "3 Days"
  | "FOUR_DAYS" => "4 Days"
  | "FIVE_DAYS" => "5 Days"
  | other => other

/-- `FedExAdapter.extractFeatures` (JS truthiness: an absent or empty
string field is falsy). -/
def fedexExtractFeatures (detail : FedExRateReplyDetail) : List String :=
  (match detail.signatureOptionType with
   | some s => if s != "" && s != "SERVICE_DEFAULT" then ["Signature Required"] else []
   | none => []) ++
  (match detail.operationalDetail.bind (·.deliveryDay) with
   | some d => if d != "" then ["Delivers " ++ d] else []
   | none => []) ++
  (match detail.operationalDetail.bind (·.transitTime) with
   | some t => if t != "" then [fedexFormatTransitTime t] else []
   | none => []) ++
  (if ((detail.operationalDetail.bind (·.ineligibleForMoneyBackGuarantee)).getD false)
   then [] else ["Money-Back Guarantee"])

/-- `FedExAdapter.mapSurchargeType`. -/
def fedexMapSurchargeType : String → FeeType
  | "FUEL" => .fuel
  | "RESIDENTIAL_DELIVERY" => .other
  | "SIGNATURE_OPTION" => .signature
  | "DECLARED_VALUE" => .insurance
  | "SATURDAY_DELIVERY" => .saturdayDelivery
  | _ => .other

/-- `FedExAdapter.mapSurchargeToFee`. -/
def fedexMapSurchargeToFee (surcharge : FedExSurcharge) : Fee :=
  { type := fedexMapSurchargeType surcharge.type
    amount := surcharge.amount
    description := surcharge.description }

/-- The `daysMap` table of `FedExAdapter.calculateFromTransitTime`. -/
def fedexTransitDays : String → Option ℕ
  | "ONE_DAY" => some 1
  | "TWO_DAYS" => some 2
  | "THREE_DAYS" => some 3
  | "FOUR_DAYS" => some 4
  | "FIVE_DAYS" => some 5
  | _ => none

/-- `FedExAdapter.calculateFromTransitTime`. -/
def fedexCalculateFromTransitTime (today : ℤ) (transitTime : Option String) : ℤ :=
  let days :=
    match transitTime with
    | some t => if t != "" then (fedexTransitDays t).getD 3 else 3
    | none => 3
  addDays today days

/-- `FedExAdapter.parseDeliveryDate` (`parseDate` models
`new Date(string).getTime()`). -/
def fedexParseDeliveryDate (parseDate : String → ℤ) (today : ℤ)
    (detail : FedExRateReplyDetail) : ℤ :=
  match detail.commitDayCxsFormat with
  | some s => if s != "" then parseDate s else
      fedexParseDeliveryDateFallback parseDate today detail
  | none => fedexParseDeliveryDateFallback parseDate today detail
where
  /-- The `commitDate` / transit-time fallbacks. -/
  fedexParseDeliveryDateFallback (parseDate : String → ℤ) (today : ℤ)
      (detail : FedExRateReplyDetail) : ℤ :=
    match detail.operationalDetail.bind (·.commitDate) with
    | some s => if s != "" then parseDate s else
        fedexCalculateFromTransitTime today (detail.operationalDetail.bind (·.transitTime))
    | none =>
        fedexCalculateFromTransitTime today (detail.operationalDetail.bind (·.transitTime))

/-- `FedExAdapter.adaptFedExRate`: `baseRate` from the selected tier's
`totalBaseCharge`, fees from its surcharges, and `totalCost` from its
`totalNetCharge`.  `none` is the JS `TypeError` crash on an empty
`ratedShipmentDetails` array. -/
def adaptFedExRate (parseDate : String → ℤ) (today now : ℤ)
    (detail : FedExRateReplyDetail) : Option ShippingRate :=
  (fedexSelectRate detail.ratedShipmentDetails).map (fun rateDetail =>
    { id := "fedex-" ++ detail.serviceType ++ "-" ++ toString now
      carrier := "FedEx"
      serviceCode := detail.serviceDescriptionCode
      serviceName := detail.serviceName
      speed := (fedexSpeedMap detail.serviceType).getD .standard
      features := fedexExtractFeatures detail
      baseRate := rateDetail.totalBaseCharge
      additionalFees := ((rateDetail.surCharges).getD []).map fedexMapSurchargeToFee
      totalCost := rateDetail.totalNetCharge
      estimatedDeliveryDate := fedexParseDeliveryDate parseDate today detail
      guaranteedDelivery :=
        !((detail.operationalDetail.bind (·.ineligibleForMoneyBackGuarantee)).getD false) })

/-- `FedExAdapter.handleAlerts`: throw
`new CarrierError('FedEx', errors[0].message, false)` when any
error-severity alert is present; warning-severity alerts are only logged. -/
def fedexHandleAlerts (alerts : List FedExAlert) : Except Thrown Unit :=
  match alerts.filter (fun a => a.alertType == "ERROR") with
  | [] => .ok ()
  | e :: _ => .error (.carrierErr "FedEx" e.message false)

/-- `FedExAdapter.fetchRates` with the API-call outcome abstracted: the
`try` body runs `handleAlerts` when alerts are present and then adapts
every rate reply detail; the `catch` wraps any thrown value — including
the `CarrierError` from `handleAlerts` — as
`new CarrierError('FedEx', message, true)`. -/
def fedexFetchRatesWith (parseDate : String → ℤ) (today now : ℤ)
    (apiResult : Except Thrown FedExRateResponse) :
    Except Thrown (List ShippingRate) :=
  let body : Except Thrown (List ShippingRate) :=
    apiResult.bind (fun response =>
      (match response.alerts with
       | some alerts => fedexHandleAlerts alerts
       | none => .ok ()).bind (fun _ =>
        match response.rateReplyDetails.mapM (adaptFedExRate parseDate today now) with
        | some rates => .ok rates
        | none => .error (.plainErr "TypeError")))
  match body with
  | .ok v => .ok v
  | .error e => .error (.carrierErr "FedEx" (messageOf e) true)

/-- `FedExAdapter.getMockRates` of the revision in `usps-adapter.ts`: the
demo-credential fallback table.  Note the `FEDEX_GROUND` entry: base charge
45.25, net charge 48.75, and an empty surcharge list. -/
def fedexGetMockRates : FedExRateResponse :=
  { rateReplyDetails :=
      [ { serviceType := "INTERNATIONAL_PRIORITY"
          serviceName := "FedEx International Priority"
          serviceDescriptionCode := "01"
          signatureOptionType := none
          operationalDetail := some
            { deliveryDay := none
              transitTime := some "THREE_DAYS"
              ineligibleForMoneyBackGuarantee := some false
              commitDate := none }
          ratedShipmentDetails :=
            [ { rateType := "ACCOUNT"
                totalBaseCharge := 312.35
                totalNetCharge := 345.15
                surCharges := some
                  [{ type := "FUEL", description := "Fuel Surcharge", amount := 32.8 }] } ]
          commitDayCxsFormat := some "2026-01-27T10:30:00" }
      , { serviceType := "FEDEX_GROUND"
          serviceName := "FedEx Ground"
          serviceDescriptionCode := "90"
          signatureOptionType := none
          operationalDetail := some
            { deliveryDay := none
              transitTime := some "FIVE_DAYS"
              ineligibleForMoneyBackGuarantee := some false
              commitDate := none }
          ratedShipmentDetails :=
            [ { rateType := "ACCOUNT"
                totalBaseCharge := 45.25
                totalNetCharge := 48.75
                surCharges := some [] } ]
          commitDayCxsFormat := some "2026-01-29T23:59:00" } ]
    alerts := none }

/-! ### Spec-side definitions and sample values used by the theorems -/

/-- The spec's transport-fault message patterns (timeout, connection
refused, DNS failure, generic network error, matched by message content),
as the lowercased-substring tests the orchestrator uses. -/
def transportFaultMessage (m : String) : Bool :=
  hasSubstr (lowerStr m) "timeout" || hasSubstr (lowerStr m) "econnrefused" ||
    hasSubstr (lowerStr m) "enotfound" || hasSubstr (lowerStr m) "network"

/-- A Shipping Options value with the Saturday-delivery flag and no other
fee option active. -/
def saturdayOnlyOptions : ShippingOptions :=
  { declaredValue := none
    signatureRequired := false
    fragileHandling := false
    saturdayDeliveryRequired := true }

/-- A Shipping Options value with every fee option off. -/
def noFeeOptions : ShippingOptions :=
  { declaredValue := none
    signatureRequired := false
    fragileHandling := false
    saturdayDeliveryRequired := false }

/-- A concrete canonical rate used to instantiate universally quantified
theorems. -/
def sampleRate (cost : ℚ) (deliveryDate : ℤ) : ShippingRate :=
  { id := "sample"
    carrier := "FedEx"
    serviceCode := "90"
    serviceName := "FedEx Ground"
    speed := .economy
    features := []
    baseRate := cost
    additionalFees := []
    totalCost := cost
    estimatedDeliveryDate := deliveryDate
    guaranteedDelivery := false }

/-- A concrete UPS rate model used to instantiate universally quantified
theorems. -/
def sampleUPSModel : UPSRateModel :=
  { services := some [{ code := "03", description := "UPS Ground" }]
    negotiatedTotalCharge := some "55.50" }

/-- The UPS response carrying `sampleUPSModel`. -/
def sampleUPSResponse : UPSRateResponse :=
  { rateModels := some [sampleUPSModel], errors := none }

/-- The rate `sampleUPSResponse` adapts to. -/
def sampleUPSRate : ShippingRate :=
  upsBuildRate 0 0 sampleUPSModel { code := "03", description := "UPS Ground" }

/-- Settled results used to instantiate the orchestration theorems: two
fulfilled carriers and one non-recoverable rejection. -/
def sampleResults : List Settled :=
  [ ⟨"UPS", .fulfilled [sampleRate 7 5, sampleRate 5 9]⟩
  , ⟨"FedEx", .rejected (.carrierErr "FedEx" "Invalid account number" false)⟩
  , ⟨"USPS", .fulfilled [sampleRate 5 2]⟩ ]

/-- An adapter oracle that fails recoverably once, then fails
non-recoverably, then succeeds. -/
def sampleRetryOracle : ℕ → AdapterOutcome
  | 0 => .thrown (.plainErr "timeout")
  | 1 => .thrown (.carrierErr "FedEx" "Invalid account number" false)
  | _ => .ok []

/-- An adapter oracle that always fails non-recoverably. -/
def sampleAuthFailOracle : ℕ → AdapterOutcome :=
  fun _ => .thrown (.carrierErr "UPS" "Invalid credentials" false)

/-! ## Supporting lemmas -/

theorem getCost_eq_base_add_fees (c : RateComponent) :
    getCost c = baseAmountOf c + ((getFees c).map Fee.amount).sum := by
  induction c with
  | BaseRate b n => simp [getCost, baseAmountOf, getFees]
  | InsuranceDecorator c dv ih =>
      simp [getCost, baseAmountOf, getFees, ih]; ring
  | SignatureDecorator c ih =>
      simp [getCost, baseAmountOf, getFees, ih]; ring
  | FragileHandlingDecorator c ih =>
      simp [getCost, baseAmountOf, getFees, ih]; ring
  | SaturdayDeliveryDecorator c ih =>
      simp [getCost, baseAmountOf, getFees, ih]; ring

theorem baseAmountOf_applyFees (c : RateComponent) (o : ShippingOptions) :
    baseAmountOf (applyFees c o) = baseAmountOf c := by
  unfold applyFees
  cases h : o.declaredValue <;>
    simp only [] <;>
    (repeat' split) <;>
    simp [baseAmountOf]

theorem baseAmountOf_decorate (c : RateComponent) (d : DecoratorKind) :
    baseAmountOf (decorate c d) = baseAmountOf c := by
  cases d <;> simp [decorate, baseAmountOf]

theorem baseAmountOf_decorateAll (c : RateComponent) (ds : List DecoratorKind) :
    baseAmountOf (decorateAll c ds) = baseAmountOf c := by
  induction ds generalizing c with
  | nil => rfl
  | cons d ds ih => simp [decorateAll] at ih ⊢; rw [ih, baseAmountOf_decorate]

theorem getFees_decorateAll (c : RateComponent) (ds : List DecoratorKind) :
    getFees (decorateAll c ds) = getFees c ++ ds.map feeOfKind := by
  induction ds generalizing c with
  | nil => simp [decorateAll]
  | cons d ds ih =>
      simp only [decorateAll, List.foldl_cons, List.map_cons] at ih ⊢
      rw [ih]
      cases d <;> simp [decorate, getFees, feeOfKind]


theorem ups_adapt_ok_invariant (now today : ℤ) (response : UPSRateResponse)
    (rates : List ShippingRate) (r : ShippingRate)
    (h : adaptUPSResponse now today response = .ok rates) (hr : r ∈ rates) :
    r.totalCost = r.baseRate ∧ r.additionalFees = [] := by
  unfold adaptUPSResponse at h
  split at h
  · cases h
  · split at h
    · cases h; cases hr
    · split at h
      · cases h; cases hr
      · cases h
        rw [List.mem_flatMap] at hr
        obtain ⟨model, _, hsvc⟩ := hr
        revert hsvc
        split
        · intro h2; cases h2
        · intro h2
          rw [List.mem_map] at h2
          obtain ⟨service, _, h3⟩ := h2
          subst h3
          simp [upsBuildRate]

/-! ## Claim C1: rate total = base + fee sum -/

/-- C1 counterexample: the second rate the FedEx adapter emits from its
mock table (`FEDEX_GROUND`) has base price 45.25, an empty fee list, and
total price 48.75 (the carrier's `totalNetCharge`), so an adapter-emitted
Canonical Rate can violate base + fee sum = total. -/
theorem fedex_mock_rate_breaks_total_invariant :
    (fedexFetchRatesWith (fun _ => 0) 0 0 (.ok fedexGetMockRates)).map
        (fun rs => rs.map (fun r =>
          (r.baseRate, r.additionalFees.map Fee.amount, r.totalCost)))
      = .ok [(312.35, [32.8], 345.15), (45.25, [], 48.75)]
    ∧ ¬ ((45.25 : ℚ) + (([] : List ℚ).sum) = 48.75) := by
  constructor
  · rfl
  · norm_num

/-- C1 (amended): a Canonical Rate's total price equals base price plus the
sum of its fee amounts for every rate after orchestrator decoration
(`applyAdditionalFees`) and for every USPS- and UPS-adapter-emitted rate;
FedEx-adapter-emitted rates instead carry the carrier's `totalNetCharge`
as total, which need not equal base plus fee sum. -/
theorem rate_total_invariant_amended :
    (∀ (rate : ShippingRate) (options : ShippingOptions),
        (applyAdditionalFees rate options).totalCost
          = (applyAdditionalFees rate options).baseRate
            + (((applyAdditionalFees rate options).additionalFees).map Fee.amount).sum)
    ∧ (∀ (now today : ℤ) (p : USPSPostage),
        (uspsTransformToShippingRate now today p).totalCost
          = (uspsTransformToShippingRate now today p).baseRate
            + (((uspsTransformToShippingRate now today p).additionalFees).map
                Fee.amount).sum)
    ∧ (∀ (api : Except Thrown UPSRateResponse) (now today : ℤ)
        (rates : List ShippingRate) (r : ShippingRate),
        upsFetchRatesWith api now today = .ok rates → r ∈ rates →
        r.totalCost = r.baseRate + ((r.additionalFees.map Fee.amount).sum)) := by
  refine ⟨?_, ?_, ?_⟩
  · intro rate options
    show getCost (applyFees (.BaseRate rate.baseRate rate.serviceName) options)
        = rate.baseRate
          + ((getFees (applyFees (.BaseRate rate.baseRate rate.serviceName) options)).map
              Fee.amount).sum
    rw [getCost_eq_base_add_fees, baseAmountOf_applyFees]
    rfl
  · intro now today p
    simp [uspsTransformToShippingRate]
  · intro api now today rates r h hr
    unfold upsFetchRatesWith at h
    split at h
    · rename_i v heq
      cases h
      cases api with
      | error e => simp [Except.bind] at heq
      | ok resp =>
          simp only [Except.bind] at heq
          have := ups_adapt_ok_invariant now today resp rates r heq hr
          rw [this.1, this.2]
          simp
    · cases h

/-- C1 amended witness: the invariant evaluated after decoration of a
concrete rate and on a concrete UPS-adapter output. -/
theorem rate_total_invariant_amended_witness :
    ((applyAdditionalFees (sampleRate 45.25 0) saturdayOnlyOptions).totalCost
        = (applyAdditionalFees (sampleRate 45.25 0) saturdayOnlyOptions).baseRate
          + (((applyAdditionalFees (sampleRate 45.25 0) saturdayOnlyOptions).additionalFees).map
              Fee.amount).sum)
    ∧ sampleUPSRate.totalCost
        = sampleUPSRate.baseRate + ((sampleUPSRate.additionalFees.map Fee.amount).sum) :=
  ⟨rate_total_invariant_amended.1 (sampleRate 45.25 0) saturdayOnlyOptions,
   rate_total_invariant_amended.2.2 (.ok sampleUPSResponse) 0 0 [sampleUPSRate]
     sampleUPSRate (by rfl) (by simp)⟩

/-! ## Claim C5: error-severity alerts fail the FedEx call -/

/-- C5: a FedEx response whose alerts contain an error-severity entry makes
`fetchRates` reject even though the call succeeded, and a warning-severity
alert does not; but the rejection is classified recoverable:
`handleAlerts` throws `CarrierError('FedEx', message, false)` and the
`catch` in `fetchRates` re-wraps it as `CarrierError('FedEx', message,
true)`, losing the non-recoverable classification the spec requires. -/
theorem fedex_error_alert_rejects_but_recoverable :
    fedexFetchRatesWith (fun _ => 0) 0 0
        (.ok { rateReplyDetails := []
               alerts := some [⟨"RATE.ERROR", "Origin postal code missing", "ERROR"⟩] })
      = .error (.carrierErr "FedEx" "Origin postal code missing" true)
    ∧ fedexFetchRatesWith (fun _ => 0) 0 0
        (.ok { rateReplyDetails := []
               alerts := some [⟨"RATE.WARNING", "Rates are estimates only", "WARNING"⟩] })
      = .ok []
    ∧ fedexHandleAlerts [⟨"RATE.ERROR", "Origin postal code missing", "ERROR"⟩]
      = .error (.carrierErr "FedEx" "Origin postal code missing" false) := by
  exact ⟨rfl, rfl, rfl⟩

/-! ## Claim C6: error classification -/

/-- C6 counterexample: an authentication failure inside the USPS adapter is
wrapped as `CarrierError('USPS', message, true)` and hence classified
recoverable by the orchestrator, though the claim requires every
non-transport failure to be non-recoverable. -/
theorem auth_failure_classified_recoverable :
    uspsFetchRatesWith (.error (.plainErr "Invalid API key: authentication failed")) 0 0
      = .error (.carrierErr "USPS" "Invalid API key: authentication failed" true)
    ∧ isRecoverableError
        (.carrierErr "USPS" "Invalid API key: authentication failed" true) = true
    ∧ transportFaultMessage "Invalid API key: authentication failed" = false := by
  exact ⟨rfl, rfl, by rfl⟩

/-- C6 (amended): a plain `Error` is classified recoverable exactly when
its message matches a transport-fault pattern, a thrown non-`Error` value
is classified recoverable, and a `CarrierError` is classified by its own
flag — where the USPS and UPS adapters construct every `CarrierError`,
whatever the underlying failure, with `recoverable = true`. -/
theorem error_classification_amended :
    (∀ m : String, isRecoverableError (.plainErr m) = transportFaultMessage m)
    ∧ (∀ (c m : String) (rec : Bool), isRecoverableError (.carrierErr c m rec) = rec)
    ∧ isRecoverableError .nonError = true
    ∧ (∀ (e : Thrown) (now today : ℤ),
        uspsFetchRatesWith (.error e) now today
          = .error (.carrierErr "USPS" (messageOf e) true))
    ∧ (∀ (e : Thrown) (now today : ℤ),
        upsFetchRatesWith (.error e) now today
          = .error (.carrierErr "UPS" (messageOf e) true)) := by
  refine ⟨fun m => rfl, fun c m rec => rfl, rfl, fun e now today => rfl,
    fun e now today => rfl⟩

/-! ## Claim C7: Saturday-delivery-only fee -/

/-- C7: with the Saturday-delivery flag true and no other fee option
active, fee application adds exactly one fee, of amount 15.00 and type
`saturdayDelivery`, and adds 15 to the cost — both on the raw component
chain and on every orchestrator-decorated rate. -/
theorem saturday_only_single_fee :
    (∀ (b : ℚ) (n : String),
        getFees (applyFees (.BaseRate b n) saturdayOnlyOptions) = [saturdayFee]
        ∧ getCost (applyFees (.BaseRate b n) saturdayOnlyOptions) = b + 15)
    ∧ saturdayFee.amount = 15
    ∧ saturdayFee.type = .saturdayDelivery
    ∧ (∀ rate : ShippingRate,
        (applyAdditionalFees rate saturdayOnlyOptions).additionalFees = [saturdayFee]
        ∧ (applyAdditionalFees rate saturdayOnlyOptions).totalCost
            = rate.baseRate + 15) := by
  refine ⟨fun b n => ⟨rfl, rfl⟩, rfl, rfl, fun rate => ⟨rfl, rfl⟩⟩

/-! ## Claim C8: insurance floor and the scenario -/

/-- C8: the insurance fee is `max(declaredValue / 100, 2.50)` rounded to
2 decimals (100 ↦ 2.50, 1000 ↦ 10.00), and `BaseRate(100, "Standard")`
decorated with Insurance(500) then Signature costs 110.50 with exactly the
two fees insurance 5.00 and signature 5.50. -/
theorem insurance_floor_and_scenario :
    (∀ v : ℚ, (calculateInsurance v).amount = round2 (max (v / 100) (5 / 2)))
    ∧ (calculateInsurance 100).amount = 5 / 2
    ∧ (calculateInsurance 1000).amount = 10
    ∧ getCost (.SignatureDecorator (.InsuranceDecorator (.BaseRate 100 "Standard") 500))
        = 221 / 2
    ∧ getFees (.SignatureDecorator (.InsuranceDecorator (.BaseRate 100 "Standard") 500))
        = [{ type := .insurance, amount := 5, description := "Declared Value Insurance" },
           { type := .signature, amount := 11 / 2, description := "Signature Required" }] := by
  have h500 : (calculateInsurance 500).amount = 5 := by
    norm_num [calculateInsurance, round2]
  refine ⟨fun v => rfl, ?_, ?_, ?_, ?_⟩
  · norm_num [calculateInsurance, round2]
  · norm_num [calculateInsurance, round2]
  · show (100 : ℚ) + (calculateInsurance 500).amount + signatureFee.amount = 221 / 2
    rw [h500]
    norm_num [signatureFee]
  · show ([] : List Fee) ++ [calculateInsurance 500] ++ [signatureFee] = _
    have : calculateInsurance 500
        = { type := .insurance, amount := 5, description := "Declared Value Insurance" } := by
      rw [calculateInsurance.eq_def]
      rw [show round2 (max ((500 : ℚ) / 100) (5 / 2)) = 5 from h500]
    rw [this]
    rfl

/-! ## Claim C9: additivity and order-invariance of decoration -/

/-- C9: for any decoration sequence over a base, the decorated cost is the
undecorated base cost plus the sum of all fee amounts, and two decoration
orders of the same fee set give the same cost with fee lists that are
permutations of each other. -/
theorem decoration_additive_and_order_invariant :
    (∀ (b : ℚ) (n : String) (ds : List DecoratorKind),
        getCost (decorateAll (.BaseRate b n) ds)
          = b + ((getFees (decorateAll (.BaseRate b n) ds)).map Fee.amount).sum)
    ∧ (∀ (b : ℚ) (n : String) (ds1 ds2 : List DecoratorKind), ds1.Perm ds2 →
        getCost (decorateAll (.BaseRate b n) ds1)
            = getCost (decorateAll (.BaseRate b n) ds2)
        ∧ (getFees (decorateAll (.BaseRate b n) ds1)).Perm
            (getFees (decorateAll (.BaseRate b n) ds2))) := by
  have hadd : ∀ (b : ℚ) (n : String) (ds : List DecoratorKind),
      getCost (decorateAll (.BaseRate b n) ds)
        = b + ((getFees (decorateAll (.BaseRate b n) ds)).map Fee.amount).sum := by
    intro b n ds
    rw [getCost_eq_base_add_fees, baseAmountOf_decorateAll]
    rfl
  refine ⟨hadd, fun b n ds1 ds2 hperm => ?_⟩
  have hfees : (getFees (decorateAll (.BaseRate b n) ds1)).Perm
      (getFees (decorateAll (.BaseRate b n) ds2)) := by
    rw [getFees_decorateAll, getFees_decorateAll]
    exact ((hperm.map feeOfKind).append_left (getFees (.BaseRate b n)))
  refine ⟨?_, hfees⟩
  rw [hadd, hadd]
  rw [(hfees.map Fee.amount).sum_eq]

/-- C9 witness: two concrete orders of the same decorator set give the
same cost and permuted fee lists. -/
theorem decoration_order_invariant_witness :
    getCost (decorateAll (.BaseRate 100 "Standard") [.signature, .insurance 500])
        = getCost (decorateAll (.BaseRate 100 "Standard") [.insurance 500, .signature])
    ∧ (getFees (decorateAll (.BaseRate 100 "Standard") [.signature, .insurance 500])).Perm
        (getFees (decorateAll (.BaseRate 100 "Standard") [.insurance 500, .signature])) :=
  decoration_additive_and_order_invariant.2 100 "Standard"
    [.signature, .insurance 500] [.insurance 500, .signature] (by decide)

/-! ## Claim C10: the USPS adapter always resolves with the empty list -/

/-- C10: the USPS API stub returns a response with zero postage entries,
`fetchRates` always resolves with the empty rate list, and an empty
fulfilled entry contributes neither a rate nor an error to an orchestration
result. -/
theorem usps_always_resolves_empty :
    uspsCallAPI.postage = some []
    ∧ (∀ now today : ℤ, uspsFetchRates now today = .ok [])
    ∧ (∀ rest : List Settled,
        collectRates (⟨"USPS", .fulfilled []⟩ :: rest) = collectRates rest)
    ∧ (∀ rest : List Settled,
        collectErrors (⟨"USPS", .fulfilled []⟩ :: rest) = collectErrors rest) := by
  refine ⟨rfl, fun now today => rfl, fun rest => rfl, fun rest => rfl⟩

/-! ## Sorting and collection lemmas -/

theorem rateLE_trans (a b c : ShippingRate)
    (hab : rateLE a b = true) (hbc : rateLE b c = true) : rateLE a c = true := by
  simp only [rateLE, Bool.or_eq_true, Bool.and_eq_true, decide_eq_true_eq] at *
  rcases hab with h1 | ⟨h1, h1d⟩ <;> rcases hbc with h2 | ⟨h2, h2d⟩
  · exact Or.inl (lt_trans h1 h2)
  · exact Or.inl (h2 ▸ h1)
  · exact Or.inl (h1 ▸ h2)
  · exact Or.inr ⟨h1.trans h2, le_trans h1d h2d⟩

theorem rateLE_total (a b : ShippingRate) : rateLE a b || rateLE b a := by
  simp only [rateLE, Bool.or_eq_true, Bool.and_eq_true, decide_eq_true_eq]
  rcases lt_trichotomy a.totalCost b.totalCost with h | h | h
  · exact Or.inl (Or.inl h)
  · rcases le_total a.estimatedDeliveryDate b.estimatedDeliveryDate with hd | hd
    · exact Or.inl (Or.inr ⟨h, hd⟩)
    · exact Or.inr (Or.inr ⟨h.symm, hd⟩)
  · exact Or.inr (Or.inl h)

theorem sortRates_pairwise (l : List ShippingRate) :
    (sortRates l).Pairwise (fun a b => rateLE a b = true) :=
  List.sorted_mergeSort (fun a b c => rateLE_trans a b c) (fun a b => rateLE_total a b) l

theorem mem_sortRates {r : ShippingRate} {l : List ShippingRate} :
    r ∈ sortRates l ↔ r ∈ l :=
  List.mem_mergeSort

theorem collectRates_append (l1 l2 : List Settled) :
    collectRates (l1 ++ l2) = collectRates l1 ++ collectRates l2 := by
  induction l1 with
  | nil => simp [collectRates]
  | cons s rest ih =>
      obtain ⟨c, st⟩ := s
      cases st <;> simp [collectRates, ih]

theorem collectErrors_append (l1 l2 : List Settled) :
    collectErrors (l1 ++ l2) = collectErrors l1 ++ collectErrors l2 := by
  induction l1 with
  | nil => simp [collectErrors]
  | cons s rest ih =>
      obtain ⟨c, st⟩ := s
      cases st <;> simp [collectErrors, ih]

theorem collectErrors_eq_nil (l : List Settled)
    (h : ∀ s ∈ l, ∃ v, s.status = SettledStatus.fulfilled v) :
    collectErrors l = [] := by
  induction l with
  | nil => rfl
  | cons s rest ih =>
      obtain ⟨c, st⟩ := s
      obtain ⟨v, hv⟩ := h _ (List.mem_cons_self _ _)
      cases st with
      | fulfilled w =>
          show collectErrors rest = []
          exact ih (fun t ht => h t (List.mem_cons_of_mem _ ht))
      | rejected e => simp at hv

theorem mem_collectRates {r : ShippingRate} {c : String} {rs : List ShippingRate}
    (results : List Settled) (hmem : Settled.mk c (.fulfilled rs) ∈ results)
    (hr : r ∈ rs) : r ∈ collectRates results := by
  induction results with
  | nil => cases hmem
  | cons s rest ih =>
      rcases List.mem_cons.mp hmem with heq | htail
      · rw [← heq]
        show r ∈ rs ++ collectRates rest
        exact List.mem_append_left _ hr
      · obtain ⟨c2, st⟩ := s
        cases st with
        | fulfilled w =>
            show r ∈ w ++ collectRates rest
            exact List.mem_append_right _ (ih htail)
        | rejected e =>
            show r ∈ collectRates rest
            exact ih htail

/-! ## Claim C2: the sort contract of the Rate Response -/

/-- C2: in every Rate Response, adjacent rates are ordered by total price
ascending with ties broken by earlier estimated delivery date; this is the
strong form (strict increase or equal totals with ordered dates), which
implies the claim's `rates[i].totalCost <= rates[i+1].totalCost`
disjunction. -/
theorem rate_response_sorted (requestId timestamp : String)
    (results : List Settled) (i : ℕ)
    (hi : i + 1 < (fetchAllRates requestId timestamp results).rates.length) :
    (((fetchAllRates requestId timestamp results).rates.get ⟨i, by omega⟩).totalCost
        < ((fetchAllRates requestId timestamp results).rates.get ⟨i + 1, hi⟩).totalCost)
    ∨ ((((fetchAllRates requestId timestamp results).rates.get ⟨i, by omega⟩).totalCost
          = ((fetchAllRates requestId timestamp results).rates.get ⟨i + 1, hi⟩).totalCost)
        ∧ (((fetchAllRates requestId timestamp results).rates.get
              ⟨i, by omega⟩).estimatedDeliveryDate
            ≤ ((fetchAllRates requestId timestamp results).rates.get
                ⟨i + 1, hi⟩).estimatedDeliveryDate)) := by
  have hp : ((fetchAllRates requestId timestamp results).rates).Pairwise
      (fun a b => rateLE a b = true) := sortRates_pairwise (collectRates results)
  rw [List.pairwise_iff_get] at hp
  have h := hp ⟨i, by omega⟩ ⟨i + 1, hi⟩ (by simp [Fin.lt_def])
  simpa only [rateLE, Bool.or_eq_true, Bool.and_eq_true, decide_eq_true_eq] using h

/-- C2 witness: the sort contract evaluated between the first two rates of
a concrete three-rate response. -/
theorem rate_response_sorted_witness :
    0 + 1 < (fetchAllRates "req-1" "ts-1" sampleResults).rates.length
    ∧ ((((fetchAllRates "req-1" "ts-1" sampleResults).rates.get
          ⟨0, by simp [fetchAllRates, sortRates, collectRates, sampleResults]⟩).totalCost
        < ((fetchAllRates "req-1" "ts-1" sampleResults).rates.get
            ⟨0 + 1, by simp [fetchAllRates, sortRates, collectRates, sampleResults]⟩).totalCost)
      ∨ ((((fetchAllRates "req-1" "ts-1" sampleResults).rates.get
            ⟨0, by simp [fetchAllRates, sortRates, collectRates, sampleResults]⟩).totalCost
          = ((fetchAllRates "req-1" "ts-1" sampleResults).rates.get
              ⟨0 + 1, by simp [fetchAllRates, sortRates, collectRates, sampleResults]⟩).totalCost)
        ∧ (((fetchAllRates "req-1" "ts-1" sampleResults).rates.get
              ⟨0, by simp [fetchAllRates, sortRates, collectRates, sampleResults]⟩).estimatedDeliveryDate
            ≤ ((fetchAllRates "req-1" "ts-1" sampleResults).rates.get
                ⟨0 + 1, by simp [fetchAllRates, sortRates, collectRates, sampleResults]⟩).estimatedDeliveryDate))) :=
  ⟨by simp [fetchAllRates, sortRates, collectRates, sampleResults],
   rate_response_sorted "req-1" "ts-1" sampleResults 0
     (by simp [fetchAllRates, sortRates, collectRates, sampleResults])⟩

/-! ## Claim C3: partial-failure isolation -/

/-- C3: when exactly one of three dispatched carriers rejects with a
non-recoverable `CarrierError` and the other two fulfil, the response's
error list is exactly the one entry naming the failed carrier with
`recoverable = false` and the response contains every fulfilled rate; and
in general the orchestrator never drops a fulfilled rate because another
carrier failed. -/
theorem partial_failure_isolation :
    (∀ (requestId timestamp failedCarrier msg : String) (pre post : List Settled),
      (∀ s ∈ pre ++ post, ∃ v, s.status = SettledStatus.fulfilled v) →
      pre.length + post.length = 2 →
      (fetchAllRates requestId timestamp
          (pre ++ ⟨failedCarrier, .rejected (.carrierErr failedCarrier msg false)⟩ :: post)).errors
        = [⟨failedCarrier, msg, false⟩]
      ∧ ∀ (s : Settled) (rs : List ShippingRate) (r : ShippingRate),
          s ∈ pre ++ post → s.status = SettledStatus.fulfilled rs → r ∈ rs →
          r ∈ (fetchAllRates requestId timestamp
              (pre ++ ⟨failedCarrier, .rejected (.carrierErr failedCarrier msg false)⟩ :: post)).rates)
    ∧ (∀ (requestId timestamp carrier : String) (results : List Settled)
        (rs : List ShippingRate) (r : ShippingRate),
        Settled.mk carrier (SettledStatus.fulfilled rs) ∈ results → r ∈ rs →
        r ∈ (fetchAllRates requestId timestamp results).rates) := by
  constructor
  · intro requestId timestamp failedCarrier msg pre post hful _hlen
    have hpre : ∀ s ∈ pre, ∃ v, s.status = SettledStatus.fulfilled v :=
      fun s hs => hful s (List.mem_append_left _ hs)
    have hpost : ∀ s ∈ post, ∃ v, s.status = SettledStatus.fulfilled v :=
      fun s hs => hful s (List.mem_append_right _ hs)
    constructor
    · show collectErrors _ = _
      rw [collectErrors_append, collectErrors_eq_nil pre hpre]
      show collectErrors _ = _
      rw [show collectErrors
            (⟨failedCarrier, .rejected (.carrierErr failedCarrier msg false)⟩ :: post)
          = toDomainError failedCarrier (.carrierErr failedCarrier msg false)
              :: collectErrors post from rfl]
      rw [collectErrors_eq_nil post hpost]
      rfl
    · intro s rs r hs hst hr
      show r ∈ sortRates _
      rw [mem_sortRates]
      refine mem_collectRates (c := s.carrier) _ ?_ hr
      have hs2 : Settled.mk s.carrier (SettledStatus.fulfilled rs) = s := by
        obtain ⟨c2, st⟩ := s
        simp only at hst
        rw [hst]
      rcases List.mem_append.mp hs with h | h
      · exact List.mem_append_left _ (hs2 ▸ h)
      · exact List.mem_append_right _ (List.mem_cons_of_mem _ (hs2 ▸ h))
  · intro requestId timestamp carrier results rs r hmem hr
    show r ∈ sortRates _
    rw [mem_sortRates]
    exact mem_collectRates results hmem hr

/-- C3 witness: the isolation property evaluated on a concrete settled
list with two fulfilled carriers around one non-recoverable rejection. -/
theorem partial_failure_isolation_witness :
    (fetchAllRates "req-2" "ts-2"
        ([⟨"UPS", .fulfilled [sampleRate 7 5, sampleRate 5 9]⟩]
          ++ ⟨"FedEx", .rejected (.carrierErr "FedEx" "Invalid account number" false)⟩
            :: [⟨"USPS", .fulfilled [sampleRate 5 2]⟩])).errors
      = [⟨"FedEx", "Invalid account number", false⟩]
    ∧ sampleRate 5 2 ∈ (fetchAllRates "req-2" "ts-2"
        ([⟨"UPS", .fulfilled [sampleRate 7 5, sampleRate 5 9]⟩]
          ++ ⟨"FedEx", .rejected (.carrierErr "FedEx" "Invalid account number" false)⟩
            :: [⟨"USPS", .fulfilled [sampleRate 5 2]⟩])).rates :=
  have h := partial_failure_isolation.1 "req-2" "ts-2" "FedEx" "Invalid account number"
    [⟨"UPS", .fulfilled [sampleRate 7 5, sampleRate 5 9]⟩]
    [⟨"USPS", .fulfilled [sampleRate 5 2]⟩]
    (by intro s hs
        rcases List.mem_append.mp hs with h | h <;> simp at h <;> rw [h] <;> exact ⟨_, rfl⟩)
    (by rfl)
  ⟨h.1, h.2 ⟨"USPS", .fulfilled [sampleRate 5 2]⟩ [sampleRate 5 2] (sampleRate 5 2)
    (by simp) rfl (by simp)⟩

/-! ## Claim C4: retry with exponential backoff -/

/-- C4 counterexample: with an adapter that fails recoverably once, then
fails NON-recoverably, then succeeds, the chain performs a third adapter
call after the non-recoverable failure (call count 3, a second backoff
wait before it) and resolves with that call's rates — the non-recoverable
failure is neither reported immediately nor final: `retryWithBackoff`
retries every failure inside the chain regardless of classification. -/
theorem nonrecoverable_failure_still_retried :
    runView (fetchCarrierRate "FedEx" sampleRetryOracle noFeeOptions)
      = some (.ok [], 3, [1000, 2000])
    ∧ sampleRetryOracle 1 = .thrown (.carrierErr "FedEx" "Invalid account number" false)
    ∧ isRecoverableError (.carrierErr "FedEx" "Invalid account number" false) = false :=
  ⟨rfl, rfl, rfl⟩

/-- C4 (amended): for a carrier whose retry counter is fresh, the first
failure decides the chain: a non-recoverable first failure is re-thrown
immediately, after exactly one adapter call and no backoff wait; a
recoverable first failure starts the backoff chain, which waits
`2^attempt` seconds (1 s, 2 s, 4 s) before each of at most `maxRetries = 3`
further adapter calls, retries chain failures regardless of their
classification, resolves with the decorated rates of the first successful
call, and throws the retries-exhausted error after the third failed
retry. -/
theorem retry_backoff_amended :
    ∀ (carrier : String) (oracle : ℕ → AdapterOutcome) (options : ShippingOptions),
      (∀ e : Thrown, oracle 0 = .thrown e → isRecoverableError e = false →
        runView (fetchCarrierRate carrier oracle options) = some (.error e, 1, []))
      ∧ (∀ (e : Thrown) (rs : List ShippingRate),
          oracle 0 = .thrown e → isRecoverableError e = true → oracle 1 = .ok rs →
          runView (fetchCarrierRate carrier oracle options)
            = some (.ok (rs.map (fun r => applyAdditionalFees r options)), 2, [1000]))
      ∧ (∀ (e e1 : Thrown) (rs : List ShippingRate),
          oracle 0 = .thrown e → isRecoverableError e = true →
          oracle 1 = .thrown e1 → oracle 2 = .ok rs →
          runView (fetchCarrierRate carrier oracle options)
            = some (.ok (rs.map (fun r => applyAdditionalFees r options)), 3, [1000, 2000]))
      ∧ (∀ (e e1 e2 : Thrown) (rs : List ShippingRate),
          oracle 0 = .thrown e → isRecoverableError e = true →
          oracle 1 = .thrown e1 → oracle 2 = .thrown e2 → oracle 3 = .ok rs →
          runView (fetchCarrierRate carrier oracle options)
            = some (.ok (rs.map (fun r => applyAdditionalFees r options)),
                4, [1000, 2000, 4000]))
      ∧ (∀ e e1 e2 e3 : Thrown,
          oracle 0 = .thrown e → isRecoverableError e = true →
          oracle 1 = .thrown e1 → oracle 2 = .thrown e2 → oracle 3 = .thrown e3 →
          runView (fetchCarrierRate carrier oracle options)
            = some (.error (.plainErr
                ("Failed to fetch rates from " ++ carrier ++ " after 3 retries")),
                4, [1000, 2000, 4000])) := by
  intro carrier oracle options
  refine ⟨?_, ?_, ?_, ?_, ?_⟩
  · intro e h0 hrec
    simp [fetchCarrierRate, fetchGo, h0, hrec, runView]
  · intro e rs h0 hrec h1
    simp [fetchCarrierRate, fetchGo, h0, hrec, h1, runView, maxRetries]
  · intro e e1 rs h0 hrec h1 h2
    cases hb1 : isRecoverableError e1 <;>
      simp [fetchCarrierRate, fetchGo, h0, hrec, h1, h2, hb1, runView, maxRetries]
  · intro e e1 e2 rs h0 hrec h1 h2 h3
    cases hb1 : isRecoverableError e1 <;> cases hb2 : isRecoverableError e2 <;>
      simp [fetchCarrierRate, fetchGo, h0, hrec, h1, h2, h3, hb1, hb2, runView, maxRetries]
  · intro e e1 e2 e3 h0 hrec h1 h2 h3
    cases hb1 : isRecoverableError e1 <;> cases hb2 : isRecoverableError e2 <;>
      cases hb3 : isRecoverableError e3 <;>
      simp [fetchCarrierRate, fetchGo, h0, hrec, h1, h2, h3, hb1, hb2, hb3, runView,
        maxRetries]

/-- C4 amended witness: the immediate-report case on an always-auth-failing
adapter, and the exhausted case on an always-network-failing adapter. -/
theorem retry_backoff_amended_witness :
    runView (fetchCarrierRate "UPS" sampleAuthFailOracle noFeeOptions)
      = some (.error (.carrierErr "UPS" "Invalid credentials" false), 1, [])
    ∧ runView (fetchCarrierRate "UPS" (fun _ => .thrown (.plainErr "network down"))
          noFeeOptions)
      = some (.error (.plainErr "Failed to fetch rates from UPS after 3 retries"),
          4, [1000, 2000, 4000]) :=
  ⟨(retry_backoff_amended "UPS" sampleAuthFailOracle noFeeOptions).1
      (.carrierErr "UPS" "Invalid credentials" false) rfl rfl,
   (retry_backoff_amended "UPS" (fun _ => .thrown (.plainErr "network down"))
        noFeeOptions).2.2.2.2
      (.plainErr "network down") (.plainErr "network down") (.plainErr "network down")
      (.plainErr "network down") rfl (by rfl) rfl rfl rfl⟩

end ShippingApp
